import Mathlib

/-!
Verification of the WeatherMind temperature-analysis pipeline.

The pipeline lives in `backend/weather/services/analysis/` and
`backend/weather/services/insights/temperature_insight.py`.  Readings are
modelled as rational numbers; Python `round(x, 2)` is modelled as exact
round-half-to-even at two decimal places.
-/

namespace WeatherMind

/-- Rounding of a rational to the nearest integer, ties to even
(the rounding mode of Python's builtin `round`). -/
def rhe (q : ℚ) : ℤ :=
  let f := ⌊q⌋
  let r := q - (f : ℚ)
  if r < 1/2 then f
  else if 1/2 < r then f + 1
  else if f % 2 = 0 then f else f + 1

/-- Model of Python `round(x, 2)`: round to two decimal places, ties to
even. -/
def round2 (q : ℚ) : ℚ := (rhe (100 * q) : ℚ) / 100

/-- Model of Python `max(l)` on a nonempty list (0 as an unreachable
default). -/
def listMax : List ℚ → ℚ
  | [] => 0
  | a :: rest => rest.foldl max a

/-- Model of Python `min(l)` on a nonempty list (0 as an unreachable
default). -/
def listMin : List ℚ → ℚ
  | [] => 0
  | a :: rest => rest.foldl min a

/-- The comprehension over consecutive differences in `analyze_temperature`:
the list of abs(t[i] - t[i-1]) for i = 1 .. len(t)-1. -/
def deltas : List ℚ → List ℚ
  | a :: b :: rest => |b - a| :: deltas (b :: rest)
  | _ => []

/-- The dictionary returned by `analyze_temperature`
(`backend/weather/services/analysis/temperature.py`): string classification
fields and optional numeric fields. -/
structure AnalysisResult where
  trend : String
  variation : String
  stability : String
  min : Option ℚ
  max : Option ℚ
  average : Option ℚ
  amplitude : Option ℚ
  deriving Repr, DecidableEq

/-- Embedding of `analyze_temperature` from
`backend/weather/services/analysis/temperature.py`. -/
def analyze_temperature (temperatures : List ℚ) : AnalysisResult :=
  if temperatures.length < 2 then
    { trend := "insufficient_data"
      variation := "insufficient_data"
      stability := "insufficient_data"
      min := none, max := none, average := none, amplitude := none }
  else
    let first := temperatures.headI
    let last := temperatures.getLastD 0
    let trend := if last > first then "up"
      else if last < first then "down"
      else "stable"
    let amplitude := listMax temperatures - listMin temperatures
    let variation := if amplitude < 2 then "low"
      else if amplitude ≤ 5 then "moderate"
      else "high"
    let ds := deltas temperatures
    let average_delta := ds.sum / ((ds.length : ℚ))
    let stability := if average_delta < 1 then "stable" else "unstable"
    let min_temp := listMin temperatures
    let max_temp := listMax temperatures
    let average_temp := temperatures.sum / ((temperatures.length : ℚ))
    { trend := trend
      variation := variation
      stability := stability
      min := some (round2 min_temp)
      max := some (round2 max_temp)
      average := some (round2 average_temp)
      amplitude := some (round2 amplitude) }

/-- The `trend_text` branch of `interpret_temperature_analysis`
(`backend/weather/services/analysis/interpretation.py`). -/
def trend_text (trend : String) : String :=
  if trend = "up" then "A temperatura apresentou uma tendência de alta"
  else if trend = "down" then "A temperatura apresentou uma tendência de queda"
  else "A temperatura manteve-se estável"

/-- The `variation_text` branch of `interpret_temperature_analysis`. -/
def variation_text (variation : String) : String :=
  if variation = "low" then "com pouca variação ao longo do período"
  else if variation = "moderate" then "com variação moderada ao longo do período"
  else "com variação acentuada ao longo do período"

/-- The `stability_text` branch of `interpret_temperature_analysis`. -/
def stability_text (stability : String) : String :=
  if stability = "stable" then "e mudanças graduais entre os dias"
  else "e mudanças bruscas entre os registros"

/-- Embedding of `interpret_temperature_analysis` from
`backend/weather/services/analysis/interpretation.py`. -/
def interpret_temperature_analysis (analysis : AnalysisResult) : String :=
  if analysis.trend = "insufficient_data" then
    "Ainda não há dados suficientes para analisar a variação da temperatura."
  else
    trend_text analysis.trend ++ ", " ++ variation_text analysis.variation
      ++ ", " ++ stability_text analysis.stability ++ "."

/-- The health/comfort record returned by `assess_temperature_impact`
(`backend/weather/services/analysis/impact.py`). -/
structure ImpactResult where
  health : String
  comfort : String
  deriving Repr, DecidableEq

/-- Comfort fragment appended by the variation branch of
`assess_temperature_impact`. -/
def comfort_variation_msg (variation : String) : String :=
  if variation = "high" then
    "A alta variação de temperatura pode causar desconforto térmico ao longo do período."
  else if variation = "moderate" then
    "A variação moderada de temperatura pode ser perceptível ao longo do dia."
  else
    "A baixa variação de temperatura tende a proporcionar maior conforto térmico."

/-- Health fragment appended by the variation branch of
`assess_temperature_impact`. -/
def health_variation_msg (variation : String) : String :=
  if variation = "high" then
    "Variações extremas podem afetar a saúde, especialmente de grupos vulneráveis."
  else if variation = "moderate" then
    "Variações moderadas geralmente não apresentam risco à saúde."
  else
    "Temperaturas estáveis favorecem o bem-estar e a saúde."

/-- Health fragment appended by the stability branch of
`assess_temperature_impact`. -/
def health_stability_msg (stability : String) : String :=
  if stability = "unstable" then
    "Mudanças bruscas podem indicar risco à saúde e exigem maior atenção."
  else
    "As mudanças graduais indicam um ambiente mais previsível e seguro."

/-- Comfort fragments (possibly none) appended by the trend branch of
`assess_temperature_impact`. -/
def comfort_trend_msgs (trend : String) : List String :=
  if trend = "up" then
    ["A tendência de alta pode resultar em sensação térmica mais elevada."]
  else if trend = "down" then
    ["A tendência de queda pode resultar em sensação térmica mais amena."]
  else []

/-- Health fragments (possibly none) appended by the trend branch of
`assess_temperature_impact`. -/
def health_trend_msgs (trend : String) : List String :=
  if trend = "up" then
    ["Aumento de temperatura pode aumentar risco de desidratação."]
  else if trend = "down" then
    ["Redução de temperatura aumenta risco de hipotermia em grupos vulneráveis."]
  else []

/-- Embedding of `assess_temperature_impact` from
`backend/weather/services/analysis/impact.py`: both message lists are built by
appending the variation, stability and trend fragments in that order, then
joined with a single space. -/
def assess_temperature_impact (analysis : AnalysisResult) : ImpactResult :=
  if analysis.trend = "insufficient_data" then
    { health := "Não é possível avaliar o impacto na saúde no momento por falta de dados."
      comfort := "Não é possível avaliar o conforto no momento por falta de dados." }
  else
    let health_messages : List String :=
      [health_variation_msg analysis.variation, health_stability_msg analysis.stability]
        ++ health_trend_msgs analysis.trend
    let comfort_messages : List String :=
      [comfort_variation_msg analysis.variation] ++ comfort_trend_msgs analysis.trend
    { health := String.intercalate (" ") health_messages
      comfort := String.intercalate (" ") comfort_messages }

/-- Suggestions (possibly none) appended by the variation branch of
`suggest_actions_from_temperature`
(`backend/weather/services/analysis/suggestions.py`). -/
def variation_suggestions (variation : String) : List String :=
  if variation = "high" then
    ["Considere se preparar para variações de temperatura ao longo do dia."]
  else if variation = "moderate" then
    ["Leve em conta possíveis mudanças térmicas durante o período."]
  else []

/-- The suggestion appended by the stability branch of
`suggest_actions_from_temperature` (always exactly one). -/
def stability_suggestion (stability : String) : String :=
  if stability = "unstable" then
    "Tenha uma opção extra de roupa para lidar com mudanças rápidas de clima."
  else
    "As condições estáveis favorecem o planejamento de atividades externas."

/-- Suggestions (possibly none) appended by the trend branch of
`suggest_actions_from_temperature`. -/
def trend_suggestions (trend : String) : List String :=
  if trend = "up" then
    ["Roupas mais leves podem ser mais confortáveis."]
  else if trend = "down" then
    ["Uma camada adicional de roupa pode ser útil."]
  else []

/-- Embedding of `suggest_actions_from_temperature` from
`backend/weather/services/analysis/suggestions.py`.  The `impact` argument is
received but never read, as in the source. -/
def suggest_actions_from_temperature (analysis : AnalysisResult)
    (impact : ImpactResult) : List String :=
  if analysis.trend = "insufficient_data" then
    ["Aguarde mais dados para receber sugestões climáticas."]
  else
    variation_suggestions analysis.variation
      ++ [stability_suggestion analysis.stability]
      ++ trend_suggestions analysis.trend

/-- The aggregate returned by `build_temperature_insight`. -/
structure Insight where
  analysis : AnalysisResult
  interpretation : String
  impact : ImpactResult
  suggestions : List String
  deriving Repr, DecidableEq

/-- Embedding of `build_temperature_insight` from
`backend/weather/services/insights/temperature_insight.py`. -/
def build_temperature_insight (temperatures : List ℚ) : Insight :=
  let analysis := analyze_temperature temperatures
  let interpretation := interpret_temperature_analysis analysis
  let impact := assess_temperature_impact analysis
  let suggestions := suggest_actions_from_temperature analysis impact
  { analysis := analysis
    interpretation := interpretation
    impact := impact
    suggestions := suggestions }

/-- Absence of two consecutive spaces in a string. -/
def no_double_space (s : String) : Prop := ¬ ([' ', ' '] <:+: s.data)

instance (s : String) : Decidable (no_double_space s) := by
  unfold no_double_space
  infer_instance

/-! ## Sanity checks: the test fixtures of the specification -/

example : (analyze_temperature [20, 25]).trend = "up" := by
  norm_num [analyze_temperature]

example : (analyze_temperature [20, 25]).variation = "moderate" := by
  norm_num [analyze_temperature, listMax, listMin]

example : (analyze_temperature [20, 25]).stability = "unstable" := by
  norm_num [analyze_temperature, deltas]

example : (analyze_temperature [20, 19]).variation = "low" := by
  norm_num [analyze_temperature, listMax, listMin]

example : (analyze_temperature [22, 23, 25, 28, 27, 26]).average = some (2517/100) := by
  simp only [analyze_temperature]
  norm_num
  norm_num [round2, rhe]

example : (analyze_temperature [22, 23, 25, 28, 27, 26]).variation = "high" := by
  simp only [analyze_temperature, listMax, listMin, List.foldl]
  norm_num [max_def, min_def]

example : (analyze_temperature [22, 23, 25, 28, 27, 26]).stability = "unstable" := by
  simp only [analyze_temperature, deltas]
  norm_num

example : (analyze_temperature [20, 20, 20]).trend = "stable" := by
  norm_num [analyze_temperature]

example : (analyze_temperature [20, 20, 20]).stability = "stable" := by
  norm_num [analyze_temperature, deltas]

example : (analyze_temperature [7]).min = none := by
  norm_num [analyze_temperature]

/-! ## Supporting lemmas -/

theorem le_foldl_max : ∀ (l : List ℚ) (a : ℚ), a ≤ l.foldl max a
  | [], _ => le_refl _
  | b :: l, a => le_trans (le_max_left a b) (le_foldl_max l (max a b))

theorem mem_le_foldl_max : ∀ (l : List ℚ) (a x : ℚ), x ∈ l → x ≤ l.foldl max a
  | b :: l, a, x, h => by
    rcases List.mem_cons.mp h with rfl | h
    · exact le_trans (le_max_right a x) (le_foldl_max l (max a x))
    · exact mem_le_foldl_max l (max a b) x h

theorem foldl_max_mem : ∀ (l : List ℚ) (a : ℚ), l.foldl max a ∈ a :: l
  | [], a => by simp [List.foldl]
  | b :: l, a => by
    have h := foldl_max_mem l (max a b)
    rcases List.mem_cons.mp h with h | h
    · rcases max_choice a b with h2 | h2 <;> rw [List.foldl, h, h2] <;> simp
    · simp only [List.foldl]
      exact List.mem_cons_of_mem _ (List.mem_cons_of_mem _ h)

theorem foldl_min_le : ∀ (l : List ℚ) (a : ℚ), l.foldl min a ≤ a
  | [], _ => le_refl _
  | b :: l, a => le_trans (foldl_min_le l (min a b)) (min_le_left a b)

theorem foldl_min_le_mem : ∀ (l : List ℚ) (a x : ℚ), x ∈ l → l.foldl min a ≤ x
  | b :: l, a, x, h => by
    rcases List.mem_cons.mp h with rfl | h
    · exact le_trans (foldl_min_le l (min a x)) (min_le_right a x)
    · exact foldl_min_le_mem l (min a b) x h

theorem foldl_min_mem : ∀ (l : List ℚ) (a : ℚ), l.foldl min a ∈ a :: l
  | [], a => by simp [List.foldl]
  | b :: l, a => by
    have h := foldl_min_mem l (min a b)
    rcases List.mem_cons.mp h with h | h
    · rcases min_choice a b with h2 | h2 <;> rw [List.foldl, h, h2] <;> simp
    · simp only [List.foldl]
      exact List.mem_cons_of_mem _ (List.mem_cons_of_mem _ h)

theorem listMax_mem (a : ℚ) (l : List ℚ) : listMax (a :: l) ∈ a :: l :=
  foldl_max_mem l a

theorem le_listMax (a x : ℚ) (l : List ℚ) (h : x ∈ a :: l) : x ≤ listMax (a :: l) := by
  rcases List.mem_cons.mp h with rfl | h
  · exact le_foldl_max l x
  · exact mem_le_foldl_max l a x h

theorem listMin_mem (a : ℚ) (l : List ℚ) : listMin (a :: l) ∈ a :: l :=
  foldl_min_mem l a

theorem listMin_le (a x : ℚ) (l : List ℚ) (h : x ∈ a :: l) : listMin (a :: l) ≤ x := by
  rcases List.mem_cons.mp h with rfl | h
  · exact foldl_min_le l x
  · exact foldl_min_le_mem l a x h

theorem deltas_length : ∀ l : List ℚ, (deltas l).length = l.length - 1
  | [] => rfl
  | [_] => rfl
  | a :: b :: rest => by
    have h := deltas_length (b :: rest)
    simp only [deltas, List.length_cons] at h ⊢
    omega

theorem sum_le_length_mul_listMax (a : ℚ) (l : List ℚ) :
    (a :: l).sum ≤ (((a :: l).length : ℚ)) * listMax (a :: l) := by
  have h := List.sum_le_card_nsmul (a :: l) (listMax (a :: l))
    (fun x hx => le_listMax a x l hx)
  rwa [nsmul_eq_mul] at h

theorem length_mul_listMin_le_sum (a : ℚ) (l : List ℚ) :
    (((a :: l).length : ℚ)) * listMin (a :: l) ≤ (a :: l).sum := by
  have h := List.card_nsmul_le_sum (a :: l) (listMin (a :: l))
    (fun x hx => listMin_le a x l hx)
  rwa [nsmul_eq_mul] at h

theorem listMin_le_mean (a : ℚ) (l : List ℚ) :
    listMin (a :: l) ≤ (a :: l).sum / (((a :: l).length : ℚ)) := by
  have hn : (0 : ℚ) < ((a :: l).length : ℚ) := by
    simp only [List.length_cons]
    positivity
  rw [le_div_iff₀ hn]
  have := length_mul_listMin_le_sum a l
  linarith

theorem mean_le_listMax (a : ℚ) (l : List ℚ) :
    (a :: l).sum / (((a :: l).length : ℚ)) ≤ listMax (a :: l) := by
  have hn : (0 : ℚ) < ((a :: l).length : ℚ) := by
    simp only [List.length_cons]
    positivity
  rw [div_le_iff₀ hn]
  have := sum_le_length_mul_listMax a l
  linarith

theorem le_rhe (q : ℚ) : ⌊q⌋ ≤ rhe q := by
  simp only [rhe]
  split_ifs <;> omega

theorem rhe_le (q : ℚ) : rhe q ≤ ⌊q⌋ + 1 := by
  simp only [rhe]
  split_ifs <;> omega

theorem rhe_mono : Monotone rhe := by
  intro p q hpq
  have hf : ⌊p⌋ ≤ ⌊q⌋ := Int.floor_le_floor hpq
  rcases lt_or_eq_of_le hf with hlt | heq
  · have h1 := rhe_le p
    have h2 := le_rhe q
    omega
  · have hcast : ((⌊p⌋ : ℚ)) = ((⌊q⌋ : ℚ)) := by exact_mod_cast heq
    simp only [rhe, ← heq, ← hcast]
    split_ifs <;> first | omega | linarith

theorem round2_mono : Monotone round2 := by
  intro p q hpq
  have h : rhe (100 * p) ≤ rhe (100 * q) := rhe_mono (by linarith)
  have h2 : ((rhe (100 * p) : ℚ)) ≤ ((rhe (100 * q) : ℚ)) := by exact_mod_cast h
  exact div_le_div_of_nonneg_right h2 (by norm_num) |>.trans_eq rfl

/-- Unfolding of `analyze_temperature` on a list with fewer than two
elements. -/
theorem analyze_short (ts : List ℚ) (h : ts.length < 2) :
    analyze_temperature ts =
      { trend := "insufficient_data"
        variation := "insufficient_data"
        stability := "insufficient_data"
        min := none, max := none, average := none, amplitude := none } := by
  simp only [analyze_temperature]
  rw [if_pos h]

/-- Unfolding of `analyze_temperature` on a list with at least two
elements. -/
theorem analyze_cons_cons (t0 t1 : ℚ) (rest : List ℚ) :
    analyze_temperature (t0 :: t1 :: rest) =
      { trend :=
          if (t0 :: t1 :: rest).getLastD 0 > (t0 :: t1 :: rest).headI then "up"
          else if (t0 :: t1 :: rest).getLastD 0 < (t0 :: t1 :: rest).headI then "down"
          else "stable"
        variation :=
          if listMax (t0 :: t1 :: rest) - listMin (t0 :: t1 :: rest) < 2 then "low"
          else if listMax (t0 :: t1 :: rest) - listMin (t0 :: t1 :: rest) ≤ 5 then "moderate"
          else "high"
        stability :=
          if (deltas (t0 :: t1 :: rest)).sum / ((deltas (t0 :: t1 :: rest)).length : ℚ) < 1
          then "stable" else "unstable"
        min := some (round2 (listMin (t0 :: t1 :: rest)))
        max := some (round2 (listMax (t0 :: t1 :: rest)))
        average := some (round2 ((t0 :: t1 :: rest).sum / (((t0 :: t1 :: rest).length : ℚ))))
        amplitude := some (round2 (listMax (t0 :: t1 :: rest) - listMin (t0 :: t1 :: rest))) } := by
  simp only [analyze_temperature]
  rw [if_neg (by simp only [List.length_cons]; omega)]

theorem analyze_trend_iff (ts : List ℚ) (h : 2 ≤ ts.length) :
    ((analyze_temperature ts).trend = "up" ↔ ts.headI < ts.getLastD 0) ∧
    ((analyze_temperature ts).trend = "down" ↔ ts.getLastD 0 < ts.headI) ∧
    ((analyze_temperature ts).trend = "stable" ↔ ts.getLastD 0 = ts.headI) := by
  match ts, h with
  | t0 :: t1 :: rest, _ =>
    rw [analyze_cons_cons]
    dsimp only
    refine ⟨?_, ?_, ?_⟩
    · constructor
      · intro hh
        split_ifs at hh with h1 h2
        · exact h1
        · exact absurd hh (by decide)
        · exact absurd hh (by decide)
      · intro hh
        rw [if_pos hh]
    · constructor
      · intro hh
        split_ifs at hh with h1 h2
        · exact absurd hh (by decide)
        · exact h2
        · exact absurd hh (by decide)
      · intro hh
        rw [if_neg (lt_asymm hh), if_pos hh]
    · constructor
      · intro hh
        split_ifs at hh with h1 h2
        · exact absurd hh (by decide)
        · exact absurd hh (by decide)
        · exact le_antisymm (not_lt.mp h1) (not_lt.mp h2)
      · intro hh
        rw [if_neg (by rw [hh]; exact lt_irrefl _),
          if_neg (by rw [hh]; exact lt_irrefl _)]

theorem analyze_variation_iff (ts : List ℚ) (h : 2 ≤ ts.length) :
    ((analyze_temperature ts).variation = "low" ↔
      listMax ts - listMin ts < 2) ∧
    ((analyze_temperature ts).variation = "moderate" ↔
      2 ≤ listMax ts - listMin ts ∧ listMax ts - listMin ts ≤ 5) ∧
    ((analyze_temperature ts).variation = "high" ↔
      5 < listMax ts - listMin ts) := by
  match ts, h with
  | t0 :: t1 :: rest, _ =>
    rw [analyze_cons_cons]
    dsimp only
    refine ⟨?_, ?_, ?_⟩
    · constructor
      · intro hh
        split_ifs at hh with h1 h2
        · exact h1
        · exact absurd hh (by decide)
        · exact absurd hh (by decide)
      · intro hh
        rw [if_pos hh]
    · constructor
      · intro hh
        split_ifs at hh with h1 h2
        · exact absurd hh (by decide)
        · exact ⟨not_lt.mp h1, h2⟩
        · exact absurd hh (by decide)
      · intro hh
        rw [if_neg (not_lt.mpr hh.1), if_pos hh.2]
    · constructor
      · intro hh
        split_ifs at hh with h1 h2
        · exact absurd hh (by decide)
        · exact absurd hh (by decide)
        · exact not_le.mp h2
      · intro hh
        rw [if_neg (by linarith), if_neg (not_le.mpr hh)]

theorem analyze_stability_iff (ts : List ℚ) (h : 2 ≤ ts.length) :
    ((analyze_temperature ts).stability = "stable" ↔
      (deltas ts).sum / ((deltas ts).length : ℚ) < 1) ∧
    ((analyze_temperature ts).stability = "unstable" ↔
      1 ≤ (deltas ts).sum / ((deltas ts).length : ℚ)) := by
  match ts, h with
  | t0 :: t1 :: rest, _ =>
    rw [analyze_cons_cons]
    dsimp only
    refine ⟨?_, ?_⟩
    · constructor
      · intro hh
        split_ifs at hh with h1
        · exact h1
        · exact absurd hh (by decide)
      · intro hh
        rw [if_pos hh]
    · constructor
      · intro hh
        split_ifs at hh with h1
        · exact absurd hh (by decide)
        · exact not_lt.mp h1
      · intro hh
        rw [if_neg (not_lt.mpr hh)]

theorem variation_suggestions_length (v : String) :
    (variation_suggestions v).length ≤ 1 := by
  simp only [variation_suggestions]
  split_ifs <;> simp

theorem trend_suggestions_length (t : String) :
    (trend_suggestions t).length ≤ 1 := by
  simp only [trend_suggestions]
  split_ifs <;> simp

theorem analyze_trend_vocab (t0 t1 : ℚ) (rest : List ℚ) :
    (analyze_temperature (t0 :: t1 :: rest)).trend = "up" ∨
    (analyze_temperature (t0 :: t1 :: rest)).trend = "down" ∨
    (analyze_temperature (t0 :: t1 :: rest)).trend = "stable" := by
  rw [analyze_cons_cons]
  dsimp only
  split_ifs <;> simp

theorem analyze_variation_vocab (t0 t1 : ℚ) (rest : List ℚ) :
    (analyze_temperature (t0 :: t1 :: rest)).variation = "low" ∨
    (analyze_temperature (t0 :: t1 :: rest)).variation = "moderate" ∨
    (analyze_temperature (t0 :: t1 :: rest)).variation = "high" := by
  rw [analyze_cons_cons]
  dsimp only
  split_ifs <;> simp

theorem analyze_stability_vocab (t0 t1 : ℚ) (rest : List ℚ) :
    (analyze_temperature (t0 :: t1 :: rest)).stability = "stable" ∨
    (analyze_temperature (t0 :: t1 :: rest)).stability = "unstable" := by
  rw [analyze_cons_cons]
  dsimp only
  split_ifs <;> simp

/-! ## Claim theorems -/

/-- C1: for every list of at least 2 readings, `analyze_temperature`
classifies `trend` as up, down or stable exactly by comparing the last
element with the first, `variation` as low, moderate or high exactly by the
amplitude bands below 2, between 2 and 5, above 5, and `stability` as stable
exactly when the mean absolute consecutive difference is below 1, unstable
otherwise. -/
theorem analyze_classification_bands (ts : List ℚ) (h : 2 ≤ ts.length) :
    ((analyze_temperature ts).trend = "up" ↔ ts.headI < ts.getLastD 0) ∧
    ((analyze_temperature ts).trend = "down" ↔ ts.getLastD 0 < ts.headI) ∧
    ((analyze_temperature ts).trend = "stable" ↔ ts.getLastD 0 = ts.headI) ∧
    ((analyze_temperature ts).variation = "low" ↔
      listMax ts - listMin ts < 2) ∧
    ((analyze_temperature ts).variation = "moderate" ↔
      2 ≤ listMax ts - listMin ts ∧ listMax ts - listMin ts ≤ 5) ∧
    ((analyze_temperature ts).variation = "high" ↔
      5 < listMax ts - listMin ts) ∧
    ((analyze_temperature ts).stability = "stable" ↔
      (deltas ts).sum / ((deltas ts).length : ℚ) < 1) ∧
    ((analyze_temperature ts).stability = "unstable" ↔
      1 ≤ (deltas ts).sum / ((deltas ts).length : ℚ)) := by
  obtain ⟨ht1, ht2, ht3⟩ := analyze_trend_iff ts h
  obtain ⟨hv1, hv2, hv3⟩ := analyze_variation_iff ts h
  obtain ⟨hs1, hs2⟩ := analyze_stability_iff ts h
  exact ⟨ht1, ht2, ht3, hv1, hv2, hv3, hs1, hs2⟩

/-- Closed instance of C1 at the fixture `[20, 25]`. -/
theorem analyze_classification_bands_witness :
    (analyze_temperature [(20 : ℚ), 25]).trend = "up" :=
  ((analyze_classification_bands [(20 : ℚ), 25] (by decide)).1).mpr
    (by norm_num [List.headI, List.getLastD])

/-- C2: on any input with fewer than 2 readings, `analyze_temperature`
returns the insufficient-data sentinel in all three classification fields and
`none` in all four numeric fields, with no error. -/
theorem analyze_insufficient_data (ts : List ℚ) (h : ts.length < 2) :
    analyze_temperature ts =
      { trend := "insufficient_data"
        variation := "insufficient_data"
        stability := "insufficient_data"
        min := none, max := none, average := none, amplitude := none } := by
  simp only [analyze_temperature]
  rw [if_pos h]

/-- Closed instance of C2 at the empty list and a singleton. -/
theorem analyze_insufficient_data_witness :
    analyze_temperature [] =
      { trend := "insufficient_data"
        variation := "insufficient_data"
        stability := "insufficient_data"
        min := none, max := none, average := none, amplitude := none } ∧
    analyze_temperature [(3 : ℚ)] =
      { trend := "insufficient_data"
        variation := "insufficient_data"
        stability := "insufficient_data"
        min := none, max := none, average := none, amplitude := none } :=
  ⟨analyze_insufficient_data [] (by decide),
   analyze_insufficient_data [(3 : ℚ)] (by decide)⟩

/-- C3: for every list of at least 2 readings, the numeric fields of
`analyze_temperature` are the minimum, maximum, arithmetic mean and
amplitude of the full sequence, each rounded to 2 decimal places, while
`variation` and `stability` are decided from the unrounded amplitude and
unrounded average delta. -/
theorem analyze_statistics_rounded (ts : List ℚ) (h : 2 ≤ ts.length) :
    ∃ lo hi, lo ∈ ts ∧ hi ∈ ts ∧ (∀ x ∈ ts, lo ≤ x ∧ x ≤ hi) ∧
      (analyze_temperature ts).min = some (round2 lo) ∧
      (analyze_temperature ts).max = some (round2 hi) ∧
      (analyze_temperature ts).average = some (round2 (ts.sum / ((ts.length : ℚ)))) ∧
      (analyze_temperature ts).amplitude = some (round2 (hi - lo)) ∧
      ((analyze_temperature ts).variation = "low" ↔ hi - lo < 2) ∧
      ((analyze_temperature ts).variation = "moderate" ↔
        2 ≤ hi - lo ∧ hi - lo ≤ 5) ∧
      ((analyze_temperature ts).variation = "high" ↔ 5 < hi - lo) ∧
      ((analyze_temperature ts).stability = "stable" ↔
        (deltas ts).sum / ((deltas ts).length : ℚ) < 1) ∧
      ((analyze_temperature ts).stability = "unstable" ↔
        1 ≤ (deltas ts).sum / ((deltas ts).length : ℚ)) := by
  obtain ⟨hv1, hv2, hv3⟩ := analyze_variation_iff ts h
  obtain ⟨hs1, hs2⟩ := analyze_stability_iff ts h
  match ts, h with
  | t0 :: t1 :: rest, h =>
    refine ⟨listMin (t0 :: t1 :: rest), listMax (t0 :: t1 :: rest),
      listMin_mem t0 (t1 :: rest), listMax_mem t0 (t1 :: rest),
      fun x hx => ⟨listMin_le t0 x (t1 :: rest) hx, le_listMax t0 x (t1 :: rest) hx⟩,
      ?_, ?_, ?_, ?_, hv1, hv2, hv3, hs1, hs2⟩
    all_goals rw [analyze_cons_cons]

/-- Closed instance of C3 at the fixture `[20, 25]`. -/
theorem analyze_statistics_rounded_witness :
    ∃ lo hi : ℚ, lo ∈ [(20 : ℚ), 25] ∧ hi ∈ [(20 : ℚ), 25] ∧
      (analyze_temperature [(20 : ℚ), 25]).amplitude = some (round2 (hi - lo)) := by
  obtain ⟨lo, hi, h1, h2, _, _, _, _, h7, _⟩ :=
    analyze_statistics_rounded [(20 : ℚ), 25] (by decide)
  exact ⟨lo, hi, h1, h2, h7⟩

/-- C4: `interpret_temperature_analysis` returns one fixed sentence when
`trend` is the insufficient-data sentinel; for every valid classification it
returns the trend clause, variation clause and stability clause in that fixed
order, joined by two comma separators and ending in a period, with distinct
clause text per category value. -/
theorem interpret_structure (a : AnalysisResult) :
    (a.trend = "insufficient_data" →
      interpret_temperature_analysis a =
        "Ainda não há dados suficientes para analisar a variação da temperatura.") ∧
    ((a.trend = "up" ∨ a.trend = "down" ∨ a.trend = "stable") →
      (a.variation = "low" ∨ a.variation = "moderate" ∨ a.variation = "high") →
      (a.stability = "stable" ∨ a.stability = "unstable") →
      (interpret_temperature_analysis a =
        trend_text a.trend ++ ", " ++ variation_text a.variation ++ ", "
          ++ stability_text a.stability ++ "." ∧
      interpret_temperature_analysis a ≠ "" ∧
      (interpret_temperature_analysis a).data.count ',' = 2 ∧
      (interpret_temperature_analysis a).data.getLast? = some '.' ∧
      (',' ∉ (trend_text a.trend).data ∧ ',' ∉ (variation_text a.variation).data ∧
        ',' ∉ (stability_text a.stability).data) ∧
      (trend_text ("up") ≠ trend_text ("down") ∧
        trend_text ("up") ≠ trend_text ("stable") ∧
        trend_text ("down") ≠ trend_text ("stable")) ∧
      (variation_text ("low") ≠ variation_text ("moderate") ∧
        variation_text ("low") ≠ variation_text ("high") ∧
        variation_text ("moderate") ≠ variation_text ("high")) ∧
      stability_text ("stable") ≠ stability_text ("unstable"))) := by
  constructor
  · intro h
    simp [interpret_temperature_analysis, h]
  · intro ht hv hs
    rcases ht with h1 | h1 | h1 <;> rcases hv with h2 | h2 | h2 <;>
      rcases hs with h3 | h3 <;>
      simp only [interpret_temperature_analysis, trend_text, variation_text,
        stability_text, h1, h2, h3] <;> decide

/-- Closed instance of C4 at a concrete valid analysis record. -/
theorem interpret_structure_witness :
    (interpret_temperature_analysis
      ⟨"up", "low", "stable", none, none, none, none⟩).data.count ',' = 2 :=
  ((interpret_structure ⟨"up", "low", "stable", none, none, none, none⟩).2
    (Or.inl rfl) (Or.inl rfl) (Or.inl rfl)).2.2.1

set_option maxRecDepth 8192 in
/-- C5: `assess_temperature_impact` returns fixed cannot-assess messages when
`trend` is the insufficient-data sentinel; otherwise `health` is the
single-space join of the variation fragment, the stability fragment and (for
up or down trends only) the trend fragment, `comfort` is the single-space
join of the variation fragment and (for up or down trends only) the trend
fragment, the stability fragment never appears in `comfort`, an absent
fragment contributes no separator, and neither string has double, leading or
trailing spaces. -/
theorem assess_impact_structure (a : AnalysisResult) :
    (a.trend = "insufficient_data" →
      assess_temperature_impact a =
        { health := "Não é possível avaliar o impacto na saúde no momento por falta de dados."
          comfort := "Não é possível avaliar o conforto no momento por falta de dados." }) ∧
    ((a.trend = "up" ∨ a.trend = "down" ∨ a.trend = "stable") →
      (a.variation = "low" ∨ a.variation = "moderate" ∨ a.variation = "high") →
      (a.stability = "stable" ∨ a.stability = "unstable") →
      ((assess_temperature_impact a).health =
        String.intercalate (" ")
          ([health_variation_msg a.variation, health_stability_msg a.stability]
            ++ health_trend_msgs a.trend) ∧
      (assess_temperature_impact a).comfort =
        String.intercalate (" ")
          ([comfort_variation_msg a.variation] ++ comfort_trend_msgs a.trend) ∧
      (health_trend_msgs ("stable") = [] ∧ comfort_trend_msgs ("stable") = []) ∧
      ((a.trend = "up" ∨ a.trend = "down") →
        (health_trend_msgs a.trend).length = 1 ∧
        (comfort_trend_msgs a.trend).length = 1) ∧
      ¬ ((health_stability_msg a.stability).data <:+:
          (assess_temperature_impact a).comfort.data) ∧
      no_double_space (assess_temperature_impact a).health ∧
      no_double_space (assess_temperature_impact a).comfort ∧
      (assess_temperature_impact a).health.data.head? ≠ some ' ' ∧
      (assess_temperature_impact a).comfort.data.head? ≠ some ' ' ∧
      (assess_temperature_impact a).health.data.getLast? ≠ some ' ' ∧
      (assess_temperature_impact a).comfort.data.getLast? ≠ some ' ')) := by
  constructor
  · intro h
    simp [assess_temperature_impact, h]
  · intro ht hv hs
    rcases ht with h1 | h1 | h1 <;> rcases hv with h2 | h2 | h2 <;>
      rcases hs with h3 | h3 <;>
      simp only [assess_temperature_impact, health_variation_msg,
        health_stability_msg, health_trend_msgs, comfort_variation_msg,
        comfort_trend_msgs, no_double_space, h1, h2, h3] <;> decide

/-- Closed instance of C5 at a concrete valid analysis record. -/
theorem assess_impact_structure_witness :
    (assess_temperature_impact
      ⟨"up", "high", "unstable", none, none, none, none⟩).health =
      String.intercalate (" ")
        ([health_variation_msg ("high"), health_stability_msg ("unstable")]
          ++ health_trend_msgs ("up")) :=
  (((assess_impact_structure ⟨"up", "high", "unstable", none, none, none, none⟩).2
    (Or.inl rfl) (Or.inr (Or.inr rfl)) (Or.inr rfl)).1)

/-- C6: `suggest_actions_from_temperature` returns exactly one fixed
suggestion when `trend` is the insufficient-data sentinel; otherwise it
returns, in fixed order, a variation-driven suggestion exactly when
`variation` is high or moderate, then always one stability-driven suggestion
(two distinct variants for stable and unstable), then a trend-driven
suggestion exactly when `trend` is up or down, for a total length between 1
and 3. -/
theorem suggest_structure (a : AnalysisResult) (impact : ImpactResult) :
    (a.trend = "insufficient_data" →
      suggest_actions_from_temperature a impact =
        ["Aguarde mais dados para receber sugestões climáticas."]) ∧
    ((a.trend = "up" ∨ a.trend = "down" ∨ a.trend = "stable") →
      (a.variation = "low" ∨ a.variation = "moderate" ∨ a.variation = "high") →
      (a.stability = "stable" ∨ a.stability = "unstable") →
      (suggest_actions_from_temperature a impact =
        variation_suggestions a.variation ++ [stability_suggestion a.stability]
          ++ trend_suggestions a.trend ∧
      (variation_suggestions a.variation = [] ↔ a.variation = "low") ∧
      ((a.variation = "high" ∨ a.variation = "moderate") →
        (variation_suggestions a.variation).length = 1) ∧
      stability_suggestion ("stable") ≠ stability_suggestion ("unstable") ∧
      (trend_suggestions a.trend = [] ↔ a.trend = "stable") ∧
      ((a.trend = "up" ∨ a.trend = "down") →
        (trend_suggestions a.trend).length = 1) ∧
      1 ≤ (suggest_actions_from_temperature a impact).length ∧
      (suggest_actions_from_temperature a impact).length ≤ 3)) := by
  constructor
  · intro h
    simp [suggest_actions_from_temperature, h]
  · intro ht hv hs
    rcases ht with h1 | h1 | h1 <;> rcases hv with h2 | h2 | h2 <;>
      rcases hs with h3 | h3 <;>
      simp only [suggest_actions_from_temperature, variation_suggestions,
        stability_suggestion, trend_suggestions, h1, h2, h3] <;> decide

/-- Closed instance of C6 at a concrete valid analysis record. -/
theorem suggest_structure_witness :
    (suggest_actions_from_temperature
      ⟨"up", "low", "stable", none, none, none, none⟩ ⟨"", ""⟩).length ≤ 3 :=
  ((suggest_structure ⟨"up", "low", "stable", none, none, none, none⟩ ⟨"", ""⟩).2
    (Or.inl rfl) (Or.inl rfl) (Or.inl rfl)).2.2.2.2.2.2.2

/-- C7: `build_temperature_insight` is exactly the aggregate of the four
stages applied in order, and two calls on the same input yield structurally
identical output (the embedding is a pure function). -/
theorem build_insight_composition (ts : List ℚ) :
    build_temperature_insight ts =
      { analysis := analyze_temperature ts
        interpretation := interpret_temperature_analysis (analyze_temperature ts)
        impact := assess_temperature_impact (analyze_temperature ts)
        suggestions := suggest_actions_from_temperature (analyze_temperature ts)
          (assess_temperature_impact (analyze_temperature ts)) } ∧
    build_temperature_insight ts = build_temperature_insight ts :=
  ⟨rfl, rfl⟩

/-- C8: the `impact` argument of `suggest_actions_from_temperature` never
gates or alters any produced suggestion: any two impact values give the same
result. -/
theorem suggest_ignores_impact (a : AnalysisResult) (i1 i2 : ImpactResult) :
    suggest_actions_from_temperature a i1 = suggest_actions_from_temperature a i2 :=
  rfl

/-- C9: the pipeline is total on every finite reading list: the divisors
`len(deltas)` and `len(temperatures)` are positive whenever they are reached,
every classification field of the built insight stays in its documented
vocabulary, the insufficient-data sentinel appears exactly on inputs shorter
than 2, and the suggestion list always has between 1 and 3 elements. -/
theorem pipeline_total (ts : List ℚ) :
    (2 ≤ ts.length → 0 < (deltas ts).length ∧ 0 < ts.length) ∧
    ((build_temperature_insight ts).analysis.trend = "insufficient_data" ↔
      ts.length < 2) ∧
    ((build_temperature_insight ts).analysis.min = none ↔ ts.length < 2) ∧
    (build_temperature_insight ts).analysis.trend ∈
      (["up", "down", "stable", "insufficient_data"] : List String) ∧
    (build_temperature_insight ts).analysis.variation ∈
      (["low", "moderate", "high", "insufficient_data"] : List String) ∧
    (build_temperature_insight ts).analysis.stability ∈
      (["stable", "unstable", "insufficient_data"] : List String) ∧
    1 ≤ (build_temperature_insight ts).suggestions.length ∧
    (build_temperature_insight ts).suggestions.length ≤ 3 := by
  match ts with
  | [] =>
    have hA := analyze_short [] (by decide)
    refine ⟨fun h => by simp at h, ?_⟩
    simp only [build_temperature_insight, hA, suggest_actions_from_temperature]
    decide
  | [t] =>
    have hA := analyze_short [t] (by simp)
    refine ⟨fun h => by simp at h, ?_⟩
    simp [build_temperature_insight, hA, suggest_actions_from_temperature]
  | t0 :: t1 :: rest =>
    have hd : 0 < (deltas (t0 :: t1 :: rest)).length := by
      rw [deltas_length]
      simp only [List.length_cons]
      omega
    have hlen2 : ¬ ((t0 :: t1 :: rest).length < 2) := by
      simp only [List.length_cons]
      omega
    have htr := analyze_trend_vocab t0 t1 rest
    have hva := analyze_variation_vocab t0 t1 rest
    have hst := analyze_stability_vocab t0 t1 rest
    have hne : (analyze_temperature (t0 :: t1 :: rest)).trend ≠ "insufficient_data" := by
      rcases htr with h | h | h <;> rw [h] <;> decide
    refine ⟨fun _ => ⟨hd, by simp only [List.length_cons]; omega⟩,
      ?_, ?_, ?_, ?_, ?_, ?_, ?_⟩
    · simp only [build_temperature_insight]
      exact ⟨fun hcontra => absurd hcontra hne, fun hcontra => absurd hcontra hlen2⟩
    · simp only [build_temperature_insight]
      constructor
      · intro hmin
        rw [analyze_cons_cons] at hmin
        exact absurd hmin (by simp)
      · intro hcontra
        exact absurd hcontra hlen2
    · simp only [build_temperature_insight]
      rcases htr with h | h | h <;> rw [h] <;> decide
    · simp only [build_temperature_insight]
      rcases hva with h | h | h <;> rw [h] <;> decide
    · simp only [build_temperature_insight]
      rcases hst with h | h <;> rw [h] <;> decide
    · have l1 := variation_suggestions_length (analyze_temperature (t0 :: t1 :: rest)).variation
      simp only [build_temperature_insight, suggest_actions_from_temperature,
        if_neg hne, List.length_append, List.length_cons, List.length_nil]
      omega
    · have l1 := variation_suggestions_length (analyze_temperature (t0 :: t1 :: rest)).variation
      have l2 := trend_suggestions_length (analyze_temperature (t0 :: t1 :: rest)).trend
      simp only [build_temperature_insight, suggest_actions_from_temperature,
        if_neg hne, List.length_append, List.length_cons, List.length_nil]
      omega

/-- Closed instance of C9 at the fixture `[20, 25]`. -/
theorem pipeline_total_witness :
    0 < (deltas [(20 : ℚ), 25]).length ∧ 0 < ([(20 : ℚ), 25]).length :=
  (pipeline_total [(20 : ℚ), 25]).1 (by decide)

/-- C10: for every list of at least 2 readings, the unrounded statistics
satisfy min ≤ average ≤ max and 0 ≤ amplitude = max - min, the numeric
fields are their roundings, and min ≤ average ≤ max is preserved after
rounding because `round2` is monotone. -/
theorem analyze_numeric_invariants (ts : List ℚ) (h : 2 ≤ ts.length) :
    listMin ts ≤ ts.sum / ((ts.length : ℚ)) ∧
    ts.sum / ((ts.length : ℚ)) ≤ listMax ts ∧
    0 ≤ listMax ts - listMin ts ∧
    (analyze_temperature ts).min = some (round2 (listMin ts)) ∧
    (analyze_temperature ts).max = some (round2 (listMax ts)) ∧
    (analyze_temperature ts).average = some (round2 (ts.sum / ((ts.length : ℚ)))) ∧
    (analyze_temperature ts).amplitude = some (round2 (listMax ts - listMin ts)) ∧
    round2 (listMin ts) ≤ round2 (ts.sum / ((ts.length : ℚ))) ∧
    round2 (ts.sum / ((ts.length : ℚ))) ≤ round2 (listMax ts) := by
  match ts, h with
  | t0 :: t1 :: rest, _ =>
    have h1 := listMin_le_mean t0 (t1 :: rest)
    have h2 := mean_le_listMax t0 (t1 :: rest)
    have h3 : listMin (t0 :: t1 :: rest) ≤ listMax (t0 :: t1 :: rest) :=
      listMin_le t0 _ (t1 :: rest) (listMax_mem t0 (t1 :: rest))
    refine ⟨h1, h2, by linarith, ?_, ?_, ?_, ?_, round2_mono h1, round2_mono h2⟩
    all_goals rw [analyze_cons_cons]

/-- Closed instance of C10 at the fixture `[22, 23, 25, 28, 27, 26]`. -/
theorem analyze_numeric_invariants_witness :
    0 ≤ listMax [(22 : ℚ), 23, 25, 28, 27, 26] - listMin [(22 : ℚ), 23, 25, 28, 27, 26] :=
  (analyze_numeric_invariants [(22 : ℚ), 23, 25, 28, 27, 26] (by decide)).2.2.1

end WeatherMind
